import Mathlib

/-!
Verification of the ACME certificate renewal orchestration module
(`src/lib/acme/certs.js`).

The module is embedded shallowly: every external collaborator (the redis
cooldown flag, the Joi domain validator, the DNS resolver, the distributed
lock, the certificate store, the key generator, the CSR builder, the ACME
account lookup, the CA client, the X.509 parser) is a field of an explicit
world record giving the outcome of the corresponding call, and each embedded
function returns both its JavaScript result (or thrown error) and the ordered
trace of collaborator calls it performed.
-/

namespace AcmeCerts

/-- Error values thrown by the module. The three named kinds carry the
`err.code` strings assigned in the source (`invalid_domain` at line 131,
`caa_mismatch` at line 154, `missing_certificate` at line 312); every other
failure (a collaborator rejection, or the TypeError raised when a property of
a null record is read) is opaque to callers and carries only a tag. -/
inductive Err where
  | invalidDomain
  | caaMismatch
  | missingCertificate
  | opaqueErr (tag : String)
deriving DecidableEq, Repr

/-- Decidable equality of collaborator outcomes, used to evaluate the
embedded functions on concrete worlds. -/
instance {α β : Type} [DecidableEq α] [DecidableEq β] : DecidableEq (Except α β) :=
  fun x y =>
    match x, y with
    | .error a, .error b =>
      if h : a = b then .isTrue (h ▸ rfl) else .isFalse fun hh => h (Except.error.inj hh)
    | .ok a, .ok b =>
      if h : a = b then .isTrue (h ▸ rfl) else .isFalse fun hh => h (Except.ok.inj hh)
    | .error _, .ok _ => .isFalse fun hh => Except.noConfusion hh
    | .ok _, .error _ => .isFalse fun hh => Except.noConfusion hh

/-- JavaScript truthiness of an optional string: `undefined`/`null` and the
empty string are falsy. -/
def strOptTruthy : Option String → Bool
  | none => false
  | some s => !s.isEmpty

/-- CertificateRecord as stored by the cert handler: the fields of the record
read or written by `certs.js` (`servername`, `privateKey`, `cert`, `ca`,
`validFrom`, `expires`, `altNames`, `issuer`, `status`, `lastCheck`).
Timestamps are milliseconds since the epoch, as in the JavaScript `Date`
comparisons of the source. -/
structure CertRecord where
  servername : String
  privateKey : Option String
  cert : Option String
  ca : List String
  validFrom : Int
  expires : Int
  altNames : List String
  issuer : String
  status : String
  lastCheck : Int
deriving DecidableEq, Repr

/-- CAA record as returned by `resolver.resolveCaa`: only the `issue` field is
read by the source (line 151). -/
structure CaaRecord where
  issue : String
deriving DecidableEq, Repr

/-- ACME account as returned by `getAcmeAccount`; only the PEM key is used
further by `acquireCert`. -/
structure AcmeAccount where
  key : String
deriving DecidableEq, Repr

/-- Raw result of `acme.certificates.create`: the `{cert, chain}` object of
the CA client, which is not a CertificateRecord. -/
structure RawCert where
  cert : Option String
  chain : List String
deriving DecidableEq, Repr

/-- Parsed certificate as returned by `Certificate.fromPEM` (line 250). -/
structure ParsedCert where
  validFrom : Int
  validTo : Int
  dnsNames : List String
  issuer : String
deriving DecidableEq, Repr

/-- Values an embedded function can return: a certificate record, JavaScript
`null`/`undefined`, the literal `false` of line 223, or the raw CA result
returned at lines 245 and 266. -/
inductive JsVal where
  | record (r : CertRecord)
  | nul
  | fals
  | rawCa (c : RawCert)
deriving DecidableEq, Repr

/-- The record-or-null value `certificateData` as a JsVal. -/
def jsOf : Option CertRecord → JsVal
  | none => .nul
  | some r => .record r

/-- JavaScript truthiness of `certificateData && certificateData.cert`
(line 279). -/
def recTruthyCert : Option CertRecord → Bool
  | none => false
  | some r => strOptTruthy r.cert

/-- Renewal horizon, `RENEW_AFTER_REMAINING` of line 24. -/
def RENEW_AFTER_REMAINING : Int := 10000 + 30 * 24 * 3600 * 1000

/-- The 30 day freshness threshold written inline by the dispatcher at
line 316 (`30 * 24 * 3600 * 1000`). -/
def thirtyDaysMs : Int := 30 * 24 * 3600 * 1000

/-- Cooldown TTL, `BLOCK_RENEW_AFTER_ERROR_TTL` of line 25. -/
def BLOCK_RENEW_AFTER_ERROR_TTL : Int := 10

/-!
## Account provisioner initialization (`ensureAcme`, lines 40-75)

The process-wide mutable state consists of the module-level variables
`acmeInitialized`, `acmeInitializing` and the pending-waiter array
`acmeInitPending`. A caller entering `ensureAcme` observes this state
synchronously (no await separates the two guards), so the entry decision is a
pure function of the state. The underlying `acme.init` call is an await
point: any other caller can enter between the start and the completion of the
initialization.
-/

/-- Process-wide state of the account provisioner: the module variables of
lines 40-42. Pending waiters are modelled by their count. -/
structure AcmeInitState where
  acmeInitialized : Bool
  acmeInitializing : Bool
  pendingCount : Nat
deriving DecidableEq, Repr

/-- What a caller entering `ensureAcme` does. -/
inductive EnsureEntry where
  | alreadyInitialized
  | queued
  | runInit
deriving DecidableEq, Repr

/-- Entry of `ensureAcme` (lines 45-55): return immediately when initialized;
push a pending waiter when `acmeInitializing` is set; otherwise fall through
and start the underlying `acme.init`. The source reaches the `await
acme.init` of line 55 without assigning `acmeInitializing = true`, so the
state handed to the next caller is unchanged on the `runInit` path. -/
def ensureAcmeEntry (s : AcmeInitState) : EnsureEntry × AcmeInitState :=
  if s.acmeInitialized then (.alreadyInitialized, s)
  else if s.acmeInitializing then (.queued, { s with pendingCount := s.pendingCount + 1 })
  else (.runInit, s)

/-- Completion of an initialization attempt (lines 56-72): on success
`acmeInitialized` is set and all pending waiters are resolved; on failure
they are rejected; the `finally` clears `acmeInitializing`. The pending
array itself is never emptied by the source. -/
def ensureAcmeComplete (success : Bool) (s : AcmeInitState) : AcmeInitState :=
  { s with
    acmeInitialized := success || s.acmeInitialized
    acmeInitializing := false }

/-- The state in which a fresh process first calls `ensureAcme`. -/
def initialAcmeState : AcmeInitState := ⟨false, false, 0⟩

/-- C1: the claim states that a concurrent caller arriving while the first
caller is performing the underlying initialization is queued, and that the
underlying init is never performed more than once concurrently. The source
never sets `acmeInitializing` to `true` (its only assignments are the
initializer of line 41 and the `finally` of line 71), so a second caller
entering while the first is suspended in `await acme.init` observes the same
state and takes the `runInit` path again: the underlying initialization is
performed twice concurrently, contradicting the claim and the comment of
line 39 of the source. -/
theorem ensureAcme_double_init :
    (ensureAcmeEntry initialAcmeState).1 = EnsureEntry.runInit ∧
    (ensureAcmeEntry (ensureAcmeEntry initialAcmeState).2).1 = EnsureEntry.runInit ∧
    (ensureAcmeEntry initialAcmeState).2.pendingCount = 0 := by
  decide

/-!
## Collaborator calls and the world

Each embedded function returns its value (or thrown error) together with the
ordered list of collaborator calls it performed. The world record fixes the
outcome of every collaborator call of one `acquireCert` run.
-/

/-- Observable collaborator calls of the module, in source order:
`db.redis.exists` (line 170), the Joi syntax check (line 123), one CAA query
per suffix (line 146), lock acquisition (line 197), the post-lease store
re-fetch (line 200), `resetPrivateKey` (line 210), `CSR.csr` (line 214),
`getAcmeAccount` (line 220), `acme.certificates.create` (line 242),
`Certificate.fromPEM` (line 250), `certHandler.update` (line 263), the final
re-read (line 270), the cooldown `set` (line 273, with its outcome, which is
only logged), and `releaseLock` (line 287, with its outcome, which is only
logged). The dispatcher additionally records `ensureAcme` (line 304), its
record fetch (line 308), and the spawning of a detached background renewal
(line 325). -/
inductive Event where
  | checkCooldown
  | validate
  | dnsQuery (sub : String)
  | acquireLock
  | refetchStore
  | resetKey
  | buildCsr
  | getAccount
  | caIssue
  | parseCert
  | storeUpdate
  | storeReread
  | setCooldown (ok : Bool)
  | releaseLock (ok : Bool)
  | ensureAcme
  | fetchRecord
  | bgStart
deriving DecidableEq, Repr

/-- Prefix a trace onto a traced result. -/
def withEv {α : Type} (es : List Event) (p : α × List Event) : α × List Event :=
  (p.1, es ++ p.2)

/-- Outcomes of every collaborator call made during one `acquireCert` run.
Globals read by the run (`config.acme.caaDomains`, the resolver, the clock)
are fields as well. `account` abstracts the whole `getAcmeAccount` call of
line 220 as one fallible collaborator returning the account or nothing;
`accountJwk` is the outcome of the pure `pem2jwk(acmeAccount.key)` conversion
of line 226, which can throw without performing a collaborator call. -/
structure AcquireWorld where
  cooldownSet : Except Err Bool
  joiDomainOk : String → Bool
  caaDomains : List String
  resolverHasCaa : Bool
  resolveCaa : String → Option (List CaaRecord)
  lockResult : Except Err Nat
  refetch : Except Err (Option CertRecord)
  resetKey : Except Err String
  csr : String → Except Err String
  account : Except Err (Option AcmeAccount)
  accountJwk : Except Err Unit
  caCreate : Except Err (Option RawCert)
  parse : Except Err ParsedCert
  update : Except Err Bool
  reread : Except Err (Option CertRecord)
  setCooldownOk : Bool
  releaseOk : Bool
  now : Int

/-!
## Domain validator (`validateDomain`, lines 121-164)
-/

/-- Modelled from the spec: `normalizeDomain` lives in `lib/tools.js`, which
is not part of this repository snapshot; the spec only says the entry point
normalizes the domain name before use. We model normalization as
lowercasing. -/
def normalizeDomain (domain : String) : String :=
  String.mk (domain.data.map Char.toLower)

/-- Join the labels of a suffix back into a domain name, as the
`parts.slice(i).join` call does at line 142 of the source. -/
def joinDots (parts : List String) : String := String.intercalate "." parts

/-- The allow-list as computed at line 136:
`config.acme.caaDomains.map(normalizeDomain).filter(d => d)`. -/
def caaDomainsNorm (cfg : List String) : List String :=
  (cfg.map normalizeDomain).filter (fun d => !d.isEmpty)

/-- Whether one CAA record matches the allow-list, as tested at line 151:
the normalized issuer is looked up in the raw configured list
`config.acme.caaDomains`, not in the normalized list of line 136. -/
def caaMatch (cfgRaw : List String) (r : CaaRecord) : Bool :=
  cfgRaw.contains (normalizeDomain r.issue)

/-- The CAA suffix walk of lines 140-160: starting from the full label list,
query each suffix while at least two labels remain (the loop bound
`i < parts.length - 1` stops before the bare TLD). A failed query (the
catch of line 147) or an empty record set continues with the next suffix; a
non-empty set with no matching issuer throws `caa_mismatch`; a non-empty set
with a matching issuer ends the walk successfully (the break of line 158). -/
def caaWalk (cfgRaw : List String) (resolve : String → Option (List CaaRecord)) :
    List String → Except Err Unit × List Event
  | [] => (.ok (), [])
  | [_] => (.ok (), [])
  | p :: q :: rest =>
    let subdomain := joinDots (p :: q :: rest)
    match resolve subdomain with
    | none => withEv [.dnsQuery subdomain] (caaWalk cfgRaw resolve (q :: rest))
    | some rs =>
      if !rs.isEmpty && !(rs.any (caaMatch cfgRaw)) then
        (.error .caaMismatch, [.dnsQuery subdomain])
      else if !rs.isEmpty then
        (.ok (), [.dnsQuery subdomain])
      else
        withEv [.dnsQuery subdomain] (caaWalk cfgRaw resolve (q :: rest))

/-- Embedding of `validateDomain` (lines 121-164): the Joi syntax check throws
`invalid_domain`; then, only when the resolver supports CAA and the
normalized-and-filtered allow-list of line 136 is non-empty, the CAA walk
runs over the labels of the domain. -/
def validateDomain (w : AcquireWorld) (domain : String) : Except Err Unit × List Event :=
  if !w.joiDomainOk domain then
    (.error .invalidDomain, [.validate])
  else if w.resolverHasCaa && !(caaDomainsNorm w.caaDomains).isEmpty then
    withEv [.validate] (caaWalk w.caaDomains w.resolveCaa (domain.splitOn "."))
  else
    (.ok (), [.validate])

/-- Every event of a CAA walk is a DNS query. -/
theorem caaWalk_events (cfgRaw : List String) (resolve : String → Option (List CaaRecord)) :
    ∀ parts, ∀ e ∈ (caaWalk cfgRaw resolve parts).2, ∃ s, e = Event.dnsQuery s := by
  intro parts
  induction parts with
  | nil => simp [caaWalk]
  | cons p rest ih =>
    cases rest with
    | nil => simp [caaWalk]
    | cons q rest2 =>
      intro e he
      rw [caaWalk] at he
      rcases hr : resolve (joinDots (p :: q :: rest2)) with _ | rs
      · rw [hr] at he
        simp only [withEv, List.mem_append, List.mem_singleton] at he
        rcases he with he | he
        · exact ⟨_, he⟩
        · exact ih e he
      · rw [hr] at he
        simp only [] at he
        by_cases h1 : (!rs.isEmpty && !(rs.any (caaMatch cfgRaw))) = true
        · rw [if_pos h1] at he
          simp only [List.mem_singleton] at he
          exact ⟨_, he⟩
        · rw [if_neg h1] at he
          by_cases h2 : (!rs.isEmpty) = true
          · rw [if_pos h2] at he
            simp only [List.mem_singleton] at he
            exact ⟨_, he⟩
          · rw [if_neg h2] at he
            simp only [withEv, List.mem_append, List.mem_singleton] at he
            rcases he with he | he
            · exact ⟨_, he⟩
            · exact ih e he

/-- Every event of a `validateDomain` run is the syntax check or a DNS
query. -/
theorem validateDomain_events (w : AcquireWorld) (domain : String) :
    ∀ e ∈ (validateDomain w domain).2,
      e = Event.validate ∨ ∃ s, e = Event.dnsQuery s := by
  intro e he
  rw [validateDomain] at he
  by_cases h1 : (!w.joiDomainOk domain) = true
  · rw [if_pos h1] at he
    simp only [List.mem_singleton] at he
    exact Or.inl he
  · rw [if_neg h1] at he
    by_cases h2 : (w.resolverHasCaa && !(caaDomainsNorm w.caaDomains).isEmpty) = true
    · rw [if_pos h2] at he
      simp only [withEv, List.mem_append, List.mem_singleton] at he
      rcases he with he | he
      · exact Or.inl he
      · exact Or.inr (caaWalk_events w.caaDomains w.resolveCaa _ e he)
    · rw [if_neg h2] at he
      simp only [List.mem_singleton] at he
      exact Or.inl he

/-- A walk over suffixes none of which carries a CAA policy (every query
fails or returns the empty set) succeeds. -/
theorem caaWalk_no_policy (cfgRaw : List String)
    (resolve : String → Option (List CaaRecord))
    (h : ∀ s, resolve s = none ∨ resolve s = some []) :
    ∀ parts, (caaWalk cfgRaw resolve parts).1 = .ok () := by
  intro parts
  induction parts with
  | nil => simp [caaWalk]
  | cons p rest ih =>
    cases rest with
    | nil => simp [caaWalk]
    | cons q rest2 =>
      rw [caaWalk]
      rcases h (joinDots (p :: q :: rest2)) with hr | hr <;>
        simp [hr, withEv, ih]

/-- C7: with a non-empty configured allow-list, `validateDomain` walks the
label suffixes of the domain from the full name down to two labels (never
querying the bare TLD, by the shape of `caaWalk`): a failed or empty CAA
query continues with the next suffix; a non-empty record set with no
matching issuer fails immediately with `caa_mismatch`; a non-empty record set
with a matching issuer ends the walk successfully having queried only the
current suffix; and a walk in which no suffix yields a non-empty set
succeeds implicitly. The final conjunct ties the walk to `validateDomain`:
when the syntax check passes, the resolver supports CAA and the normalized
allow-list is non-empty, `validateDomain` is exactly the walk over the label
list of the domain. -/
theorem validateDomain_caa_walk (cfgRaw : List String)
    (resolve : String → Option (List CaaRecord)) (p q : String) (rest : List String) :
    (resolve (joinDots (p :: q :: rest)) = none →
      caaWalk cfgRaw resolve (p :: q :: rest) =
        withEv [Event.dnsQuery (joinDots (p :: q :: rest))] (caaWalk cfgRaw resolve (q :: rest))) ∧
    (resolve (joinDots (p :: q :: rest)) = some [] →
      caaWalk cfgRaw resolve (p :: q :: rest) =
        withEv [Event.dnsQuery (joinDots (p :: q :: rest))] (caaWalk cfgRaw resolve (q :: rest))) ∧
    (∀ rs, resolve (joinDots (p :: q :: rest)) = some rs → rs ≠ [] →
      rs.any (caaMatch cfgRaw) = false →
      caaWalk cfgRaw resolve (p :: q :: rest) =
        (.error .caaMismatch, [Event.dnsQuery (joinDots (p :: q :: rest))])) ∧
    (∀ rs, resolve (joinDots (p :: q :: rest)) = some rs →
      rs.any (caaMatch cfgRaw) = true →
      caaWalk cfgRaw resolve (p :: q :: rest) =
        (.ok (), [Event.dnsQuery (joinDots (p :: q :: rest))])) ∧
    ((∀ s, resolve s = none ∨ resolve s = some []) →
      (caaWalk cfgRaw resolve (p :: q :: rest)).1 = .ok ()) ∧
    (∀ w : AcquireWorld, ∀ d : String, w.joiDomainOk d = true →
      w.resolverHasCaa = true → (caaDomainsNorm w.caaDomains).isEmpty = false →
      validateDomain w d =
        withEv [Event.validate] (caaWalk w.caaDomains w.resolveCaa (d.splitOn "."))) := by
  refine ⟨?_, ?_, ?_, ?_, ?_, ?_⟩
  · intro hr
    rw [caaWalk, hr]
  · intro hr
    rw [caaWalk, hr]
    simp [withEv]
  · intro rs hr hne hmiss
    rw [caaWalk, hr]
    simp [List.isEmpty_iff, hne, hmiss]
  · intro rs hr hhit
    have hne : rs ≠ [] := by
      rintro rfl
      simp at hhit
    rw [caaWalk, hr]
    simp [List.isEmpty_iff, hne, hhit]
  · intro h
    exact caaWalk_no_policy cfgRaw resolve h _
  · intro w d h1 h2 h3
    rw [validateDomain]
    simp [h1, h2, h3]

/-- Resolver used to witness the CAA walk: no policy at `a.b.example.com` and
`b.example.com`, a single non-matching record at `example.com`. -/
def c7Resolve : String → Option (List CaaRecord) := fun s =>
  if s = "example.com" then some [⟨"other-ca.org"⟩] else some []

/-- Witness for the CAA walk theorem at a concrete suffix: the walk over
`example.com` with a non-matching record fails with `caa_mismatch` after one
query. -/
theorem validateDomain_caa_walk_witness :
    caaWalk ["allowed-ca.net"] c7Resolve ["example", "com"] =
      (.error .caaMismatch, [Event.dnsQuery "example.com"]) := by
  have h := (validateDomain_caa_walk ["allowed-ca.net"] c7Resolve "example" "com" []).2.2.1
  exact h [⟨"other-ca.org"⟩] (by decide) (by decide) (by decide)

/-!
## Renewal coordinator (`acquireCert`, lines 166-292)
-/

/-- The private-key step of lines 206-211: reuse the key of the re-fetched
record when it is truthy, otherwise call `resetPrivateKey` (which may
throw). -/
def keyStep (w : AcquireWorld) (cd : CertRecord) : Except Err String × List Event :=
  if strOptTruthy cd.privateKey then (.ok (cd.privateKey.getD ""), [])
  else
    match w.resetKey with
    | .error e => (.error e, [.resetKey])
    | .ok k => (.ok k, [.resetKey])

/-- The issuance pipeline of lines 206-270 run on the re-fetched record `cd`,
that is, the body of the critical section after the freshness re-check:
ensure a private key, convert it and build the CSR (lines 213-218, both of
which can throw), look the ACME account up (line 220) and return the literal
`false` when there is none (line 223), convert the account key (line 226),
request issuance (line 242) and hand the raw result back when it is falsy or
carries no `cert` (line 245), parse the certificate (line 250), persist the
update (line 263) and hand the raw CA result back when the update reports
failure (line 266), and finally re-read and return the stored record
(line 270). An `.error` result is a thrown exception, to be handled by the
catch of line 271. -/
def renewSteps (w : AcquireWorld) (cd : CertRecord) : Except Err JsVal × List Event :=
  match keyStep w cd with
  | (.error e, t) => (.error e, t)
  | (.ok key, t) =>
    match w.csr key with
    | .error e => (.error e, t ++ [.buildCsr])
    | .ok _csr =>
      match w.account with
      | .error e => (.error e, t ++ [.buildCsr, .getAccount])
      | .ok none => (.ok .fals, t ++ [.buildCsr, .getAccount])
      | .ok (some _acct) =>
        match w.accountJwk with
        | .error e => (.error e, t ++ [.buildCsr, .getAccount])
        | .ok _ =>
          match w.caCreate with
          | .error e => (.error e, t ++ [.buildCsr, .getAccount, .caIssue])
          | .ok none => (.ok .nul, t ++ [.buildCsr, .getAccount, .caIssue])
          | .ok (some c) =>
            if strOptTruthy c.cert then
              match w.parse with
              | .error e => (.error e, t ++ [.buildCsr, .getAccount, .caIssue, .parseCert])
              | .ok _parsed =>
                match w.update with
                | .error e =>
                  (.error e, t ++ [.buildCsr, .getAccount, .caIssue, .parseCert, .storeUpdate])
                | .ok false =>
                  (.ok (.rawCa c),
                    t ++ [.buildCsr, .getAccount, .caIssue, .parseCert, .storeUpdate])
                | .ok true =>
                  match w.reread with
                  | .error e =>
                    (.error e,
                      t ++ [.buildCsr, .getAccount, .caIssue, .parseCert, .storeUpdate,
                        .storeReread])
                  | .ok v =>
                    (.ok (jsOf v),
                      t ++ [.buildCsr, .getAccount, .caIssue, .parseCert, .storeUpdate,
                        .storeReread])
            else
              (.ok (.rawCa c), t ++ [.buildCsr, .getAccount, .caIssue])

/-- The catch of lines 271-284, entered with the current value of the
`certificateData` binding: set the cooldown flag best-effort (its own failure
is only logged, captured by recording the outcome in the trace while the
result ignores it), then return the bound record when it carries a truthy
`cert`, else rethrow. -/
def catchPath (w : AcquireWorld) (cd : Option CertRecord) (e : Err) :
    Except Err JsVal × List Event :=
  (if recTruthyCert cd then .ok (jsOf cd) else .error e, [.setCooldown w.setCooldownOk])

/-- The critical section of lines 199-284 (the try body with its catch),
entered holding the lease with the caller-supplied binding `cd0`: re-fetch
the record by id (a throw here reaches the catch with the binding still
`cd0`; a null result rebinds `certificateData` to null so that reading
`.expires` at line 201 throws a TypeError into the catch); skip issuance when
the re-fetched expiry is beyond now plus the renewal horizon; otherwise run
the issuance pipeline, diverting any thrown error into the catch with the
re-fetched binding. -/
def lockedSection (w : AcquireWorld) (cd0 : Option CertRecord) :
    Except Err JsVal × List Event :=
  match w.refetch with
  | .error e => withEv [.refetchStore] (catchPath w cd0 e)
  | .ok none => withEv [.refetchStore] (catchPath w none (.opaqueErr "TypeError"))
  | .ok (some cd) =>
    if cd.expires > w.now + RENEW_AFTER_REMAINING then
      (.ok (.record cd), [.refetchStore])
    else
      match renewSteps w cd with
      | (.error e, t) => withEv ([.refetchStore] ++ t) (catchPath w (some cd) e)
      | (.ok v, t) => (.ok v, [.refetchStore] ++ t)

/-- Embedding of `acquireCert` (lines 166-292): return the caller's record
unchanged when the cooldown flag is set (line 175) or when `validateDomain`
throws (line 184); propagate a lock-acquisition failure directly (line 197
sits outside the try); otherwise run the locked critical section and always
release the lease afterwards, a release failure being only logged
(lines 285-291). -/
def acquireCert (w : AcquireWorld) (domain : String)
    (certificateData : Option CertRecord) : Except Err JsVal × List Event :=
  match w.cooldownSet with
  | .error e => (.error e, [.checkCooldown])
  | .ok true => (.ok (jsOf certificateData), [.checkCooldown])
  | .ok false =>
    match validateDomain w domain with
    | (.error _, vt) => (.ok (jsOf certificateData), .checkCooldown :: vt)
    | (.ok _, vt) =>
      match w.lockResult with
      | .error e => (.error e, .checkCooldown :: vt ++ [.acquireLock])
      | .ok _tok =>
        match lockedSection w certificateData with
        | (r, t) =>
          (r, .checkCooldown :: vt ++ [.acquireLock] ++ t ++ [.releaseLock w.releaseOk])

/-!
## Freshness dispatcher (`getCertificate`, lines 294-333)
-/

/-- World of one `getCertificate` call: the collaborator outcomes of the
`acquireCert` run it may perform, the outcome of the awaited `ensureAcme`
(line 304), and the record fetched by servername (line 308). -/
structure GetWorld where
  acq : AcquireWorld
  ensureAcmeRes : Except Err Unit
  fetchByServername : Except Err (Option CertRecord)

/-- Embedding of `getCertificate` (lines 294-333): await the CA client
initialization, normalize the domain, fetch the record by servername and
fail with `missing_certificate` when there is none; serve a record fresher
than thirty days directly; for a stale-but-unexpired record spawn the
renewal detached — its outcome is discarded and its failure only logged
(line 326) — and serve the cached record; for an expired record run the
renewal synchronously and return its outcome. -/
def getCertificate (w : GetWorld) (domain : String) : Except Err JsVal × List Event :=
  match w.ensureAcmeRes with
  | .error e => (.error e, [.ensureAcme])
  | .ok _ =>
    match w.fetchByServername with
    | .error e => (.error e, [.ensureAcme, .fetchRecord])
    | .ok none => (.error .missingCertificate, [.ensureAcme, .fetchRecord])
    | .ok (some cd) =>
      if cd.expires > w.acq.now + thirtyDaysMs then
        (.ok (.record cd), [.ensureAcme, .fetchRecord])
      else if cd.expires > w.acq.now then
        match acquireCert w.acq (normalizeDomain domain) (some cd) with
        | (_bg, bt) => (.ok (.record cd), [.ensureAcme, .fetchRecord, .bgStart] ++ bt)
      else
        withEv [.ensureAcme, .fetchRecord]
          (acquireCert w.acq (normalizeDomain domain) (some cd))

/-!
## Concrete sample data

A record carrying a certificate, a pending record without one, a far-future
record, and a world in which every collaborator succeeds. The clock stands at
1000 so the two stored records (expiring at 500) are expired.
-/

def recWithCert : CertRecord :=
  { servername := "mail.example.com", privateKey := some "PRIVKEY",
    cert := some "CERTPEM", ca := ["CHAINPEM"], validFrom := 0, expires := 500,
    altNames := ["mail.example.com"], issuer := "Example CA", status := "valid",
    lastCheck := 0 }

def recNoCert : CertRecord :=
  { recWithCert with privateKey := none, cert := none, status := "pending" }

def recFresh : CertRecord :=
  { recWithCert with expires := 10000000000000, status := "valid" }

def baseWorld : AcquireWorld :=
  { cooldownSet := .ok false
    joiDomainOk := fun _ => true
    caaDomains := []
    resolverHasCaa := false
    resolveCaa := fun _ => none
    lockResult := .ok 1
    refetch := .ok (some recWithCert)
    resetKey := .ok "NEWKEY"
    csr := fun _ => .ok "CSRPEM"
    account := .ok (some ⟨"ACCOUNTKEY"⟩)
    accountJwk := .ok ()
    caCreate := .ok (some ⟨some "NEWCERTPEM", ["NEWCHAINPEM"]⟩)
    parse := .ok ⟨0, 9000000000000, ["mail.example.com"], "Example CA"⟩
    update := .ok true
    reread := .ok (some recFresh)
    setCooldownOk := true
    releaseOk := true
    now := 1000 }

/-!
## Branch lemmas for `acquireCert`
-/

/-- Cooldown flag set: the caller record comes back unchanged at once. -/
theorem acq_cooldown (w : AcquireWorld) (d : String) (r : Option CertRecord)
    (h : w.cooldownSet = .ok true) :
    acquireCert w d r = (.ok (jsOf r), [.checkCooldown]) := by
  simp [acquireCert, h]

/-- Validation threw: the caller record comes back unchanged. -/
theorem acq_valfail (w : AcquireWorld) (d : String) (r : Option CertRecord) (e : Err)
    (h1 : w.cooldownSet = .ok false)
    (h2 : (validateDomain w d).1 = .error e) :
    acquireCert w d r = (.ok (jsOf r), .checkCooldown :: (validateDomain w d).2) := by
  rcases hv : validateDomain w d with ⟨vr, vt⟩
  rw [hv] at h2
  simp only at h2
  subst h2
  simp [acquireCert, h1, hv]

/-- Lock acquisition threw: the failure propagates, nothing further ran. -/
theorem acq_lockfail (w : AcquireWorld) (d : String) (r : Option CertRecord) (e : Err)
    (h1 : w.cooldownSet = .ok false)
    (h2 : (validateDomain w d).1 = .ok ())
    (h3 : w.lockResult = .error e) :
    acquireCert w d r =
      (.error e, .checkCooldown :: (validateDomain w d).2 ++ [.acquireLock]) := by
  rcases hv : validateDomain w d with ⟨vr, vt⟩
  rw [hv] at h2
  simp only at h2
  subst h2
  simp [acquireCert, h1, hv, h3]

/-- Lease held: the run is the locked critical section bracketed by the lock
acquisition and the release of the `finally`. -/
theorem acq_locked (w : AcquireWorld) (d : String) (r : Option CertRecord) (tok : Nat)
    (h1 : w.cooldownSet = .ok false)
    (h2 : (validateDomain w d).1 = .ok ())
    (h3 : w.lockResult = .ok tok) :
    acquireCert w d r =
      ((lockedSection w r).1,
        .checkCooldown :: (validateDomain w d).2 ++ [.acquireLock] ++
          (lockedSection w r).2 ++ [.releaseLock w.releaseOk]) := by
  rcases hv : validateDomain w d with ⟨vr, vt⟩
  rw [hv] at h2
  simp only at h2
  subst h2
  rcases hl : lockedSection w r with ⟨lr, lt⟩
  simp [acquireCert, h1, hv, h3, hl]

/-- Re-fetch found a record fresher than the renewal horizon: it is returned
with no issuance step. -/
theorem locked_fresh (w : AcquireWorld) (cd0 : Option CertRecord) (cd : CertRecord)
    (h4 : w.refetch = .ok (some cd))
    (h5 : cd.expires > w.now + RENEW_AFTER_REMAINING) :
    lockedSection w cd0 = (.ok (.record cd), [.refetchStore]) := by
  simp [lockedSection, h4, h5]

/-- Issuance pipeline threw: the cooldown flag is set and the re-fetched
record decides between graceful degrade and propagation. -/
theorem locked_fail (w : AcquireWorld) (cd0 : Option CertRecord) (cd : CertRecord) (e : Err)
    (h4 : w.refetch = .ok (some cd))
    (h5 : ¬cd.expires > w.now + RENEW_AFTER_REMAINING)
    (h6 : (renewSteps w cd).1 = .error e) :
    lockedSection w cd0 =
      (if strOptTruthy cd.cert then .ok (.record cd) else .error e,
        [.refetchStore] ++ (renewSteps w cd).2 ++ [.setCooldown w.setCooldownOk]) := by
  rcases hs : renewSteps w cd with ⟨sr, st⟩
  rw [hs] at h6
  simp only at h6
  subst h6
  simp [lockedSection, h4, h5, hs, catchPath, withEv, recTruthyCert, jsOf,
    List.append_assoc]

/-- Issuance pipeline returned a value without throwing: it is handed back
unchanged and no cooldown is set. -/
theorem locked_ok (w : AcquireWorld) (cd0 : Option CertRecord) (cd : CertRecord) (v : JsVal)
    (h4 : w.refetch = .ok (some cd))
    (h5 : ¬cd.expires > w.now + RENEW_AFTER_REMAINING)
    (h6 : (renewSteps w cd).1 = .ok v) :
    lockedSection w cd0 = (.ok v, [.refetchStore] ++ (renewSteps w cd).2) := by
  rcases hs : renewSteps w cd with ⟨sr, st⟩
  rw [hs] at h6
  simp only at h6
  subst h6
  simp [lockedSection, h4, h5, hs]

/-- Re-fetch returned null: reading `.expires` throws a TypeError, the catch
sees a null binding and rethrows. -/
theorem locked_refetch_none (w : AcquireWorld) (cd0 : Option CertRecord)
    (h4 : w.refetch = .ok none) :
    lockedSection w cd0 =
      (.error (.opaqueErr "TypeError"),
        [.refetchStore, .setCooldown w.setCooldownOk]) := by
  simp [lockedSection, h4, catchPath, withEv, recTruthyCert]

/-- Re-fetch itself threw: the catch still sees the caller-supplied
binding. -/
theorem locked_refetch_err (w : AcquireWorld) (cd0 : Option CertRecord) (e : Err)
    (h4 : w.refetch = .error e) :
    lockedSection w cd0 =
      (if recTruthyCert cd0 then .ok (jsOf cd0) else .error e,
        [.refetchStore, .setCooldown w.setCooldownOk]) := by
  simp [lockedSection, h4, catchPath, withEv]

/-!
## Claim theorems about `acquireCert`
-/

/-- C4: for every domain whose cooldown flag is set, `acquireCert` returns
the passed-in record unchanged immediately: the whole run is the single
cooldown check, so no lock acquisition, no domain validation, no store
re-fetch and no CA contact took place. -/
theorem cooldown_blocks_renewal (w : AcquireWorld) (d : String) (r : CertRecord)
    (h : w.cooldownSet = .ok true) :
    acquireCert w d (some r) = (.ok (.record r), [Event.checkCooldown]) ∧
    Event.acquireLock ∉ (acquireCert w d (some r)).2 ∧
    Event.validate ∉ (acquireCert w d (some r)).2 ∧
    Event.refetchStore ∉ (acquireCert w d (some r)).2 ∧
    Event.caIssue ∉ (acquireCert w d (some r)).2 := by
  have hA := acq_cooldown w d (some r) h
  refine ⟨by simpa [jsOf] using hA, ?_, ?_, ?_, ?_⟩ <;> simp [hA]

def cooldownWorld : AcquireWorld := { baseWorld with cooldownSet := .ok true }

/-- Witness for the cooldown short-circuit at a concrete world. -/
theorem cooldown_blocks_renewal_witness :
    acquireCert cooldownWorld "mail.example.com" (some recWithCert) =
      (.ok (.record recWithCert), [Event.checkCooldown]) :=
  (cooldown_blocks_renewal cooldownWorld "mail.example.com" recWithCert rfl).1

/-- C8: when lock acquisition throws (line 197 sits before the try block),
the failure propagates unchanged, no cooldown flag is set and no release is
attempted. -/
theorem lease_failure_propagates (w : AcquireWorld) (d : String)
    (r : Option CertRecord) (e : Err)
    (h1 : w.cooldownSet = .ok false)
    (h2 : (validateDomain w d).1 = .ok ())
    (h3 : w.lockResult = .error e) :
    (acquireCert w d r).1 = .error e ∧
    (∀ b, Event.setCooldown b ∉ (acquireCert w d r).2) ∧
    (∀ b, Event.releaseLock b ∉ (acquireCert w d r).2) := by
  have hA := acq_lockfail w d r e h1 h2 h3
  refine ⟨by simp [hA], ?_, ?_⟩ <;>
    · intro b hm
      rw [hA] at hm
      simp at hm
      rcases validateDomain_events w d _ hm with h | ⟨s, h⟩ <;> simp at h

def lockFailWorld : AcquireWorld :=
  { baseWorld with lockResult := .error (.opaqueErr "lock_timeout") }

/-- Witness for lease-failure propagation at a concrete world. -/
theorem lease_failure_propagates_witness :
    (acquireCert lockFailWorld "mail.example.com" (some recWithCert)).1 =
      .error (.opaqueErr "lock_timeout") :=
  (lease_failure_propagates lockFailWorld "mail.example.com" (some recWithCert)
    (.opaqueErr "lock_timeout") rfl rfl rfl).1

/-- C9: a `validateDomain` failure (invalid domain or CAA mismatch) is logged
and absorbed: `acquireCert` returns the passed-in record unchanged and never
rethrows it. -/
theorem validation_failure_absorbed (w : AcquireWorld) (d : String)
    (r : CertRecord) (e : Err)
    (h1 : w.cooldownSet = .ok false)
    (h2 : (validateDomain w d).1 = .error e) :
    acquireCert w d (some r) =
      (.ok (.record r), .checkCooldown :: (validateDomain w d).2) := by
  simpa [jsOf] using acq_valfail w d (some r) e h1 h2

def valFailWorld : AcquireWorld := { baseWorld with joiDomainOk := fun _ => false }

/-- Witness for validation-failure absorption at a concrete world whose Joi
check rejects the domain. -/
theorem validation_failure_absorbed_witness :
    acquireCert valFailWorld "not a domain" (some recWithCert) =
      (.ok (.record recWithCert), [Event.checkCooldown, Event.validate]) :=
  validation_failure_absorbed valFailWorld "not a domain" recWithCert .invalidDomain
    rfl rfl

/-- C6: with the lease held, the record is re-fetched; when the re-fetched
expiry exceeds now plus `RENEW_AFTER_REMAINING`, the fresher record is
returned with no issuance step (no CSR, no account lookup, no CA call), and
the renewal horizon is a constant strictly larger than the thirty-day
freshness threshold of the dispatcher, from which it differs by its own
10000 ms term. -/
theorem lease_recheck_skips_issuance (w : AcquireWorld) (d : String)
    (r : Option CertRecord) (tok : Nat) (cd : CertRecord)
    (h1 : w.cooldownSet = .ok false)
    (h2 : (validateDomain w d).1 = .ok ())
    (h3 : w.lockResult = .ok tok)
    (h4 : w.refetch = .ok (some cd))
    (h5 : cd.expires > w.now + RENEW_AFTER_REMAINING) :
    (acquireCert w d r).1 = .ok (.record cd) ∧
    Event.buildCsr ∉ (acquireCert w d r).2 ∧
    Event.getAccount ∉ (acquireCert w d r).2 ∧
    Event.caIssue ∉ (acquireCert w d r).2 ∧
    thirtyDaysMs < RENEW_AFTER_REMAINING ∧
    RENEW_AFTER_REMAINING = 10000 + thirtyDaysMs := by
  have hA := acq_locked w d r tok h1 h2 h3
  have hL := locked_fresh w r cd h4 h5
  rw [hL] at hA
  refine ⟨by simp [hA], ?_, ?_, ?_, by decide, by decide⟩ <;>
    · intro hm
      rw [hA] at hm
      simp at hm
      rcases validateDomain_events w d _ hm with h | ⟨s, h⟩ <;> simp at h

/-- Witness for the lease re-check at a concrete world whose re-fetch finds
a record renewed by another actor. -/
theorem lease_recheck_skips_issuance_witness :
    (acquireCert { baseWorld with refetch := .ok (some recFresh) }
      "mail.example.com" (some recWithCert)).1 = .ok (.record recFresh) :=
  (lease_recheck_skips_issuance { baseWorld with refetch := .ok (some recFresh) }
    "mail.example.com" (some recWithCert) 1 recFresh rfl rfl rfl rfl
    (by decide)).1

/-- World refuting C2 as stated: the re-fetch under the lease finds the
pending record without a certificate while the caller passed a record that
carries one, and the CSR step then throws. -/
def c2World : AcquireWorld :=
  { baseWorld with
    refetch := .ok (some recNoCert)
    csr := fun _ => .error (.opaqueErr "csr_failed") }

/-- C2 counterexample: the claim says that after a failure in steps 5-9 the
passed-in (prior) record is returned whenever it carries a certificate. At
this world the caller record carries a certificate, the CSR step fails, and
the failure is still propagated, because the catch of line 271 tests the
`certificateData` binding reassigned at line 200 to the re-fetched record,
which has no certificate here. -/
theorem renew_failure_ignores_caller_record_cex :
    strOptTruthy recWithCert.cert = true ∧
    (acquireCert c2World "mail.example.com" (some recWithCert)).1 =
      .error (.opaqueErr "csr_failed") := by
  decide

/-- C2 as amended: after the lease is held and a failure occurs inside the
issuance pipeline (steps 5-9), `acquireCert` sets the per-domain cooldown
flag — a failure of that `set` being only logged, never reflected in the
result — and then returns the record re-fetched under the lease when it
carries a certificate, propagating the failure otherwise. -/
theorem renew_failure_cooldown_then_degrade (w : AcquireWorld) (d : String)
    (r0 : Option CertRecord) (tok : Nat) (cd : CertRecord) (e : Err)
    (h1 : w.cooldownSet = .ok false)
    (h2 : (validateDomain w d).1 = .ok ())
    (h3 : w.lockResult = .ok tok)
    (h4 : w.refetch = .ok (some cd))
    (h5 : ¬cd.expires > w.now + RENEW_AFTER_REMAINING)
    (h6 : (renewSteps w cd).1 = .error e) :
    (acquireCert w d r0).1 =
      (if strOptTruthy cd.cert then .ok (.record cd) else .error e) ∧
    Event.setCooldown w.setCooldownOk ∈ (acquireCert w d r0).2 ∧
    (∀ b, (acquireCert { w with setCooldownOk := b } d r0).1 =
      (acquireCert w d r0).1) := by
  have key : ∀ w2 : AcquireWorld, w2.cooldownSet = .ok false →
      (validateDomain w2 d).1 = .ok () → w2.lockResult = .ok tok →
      w2.refetch = .ok (some cd) → ¬cd.expires > w2.now + RENEW_AFTER_REMAINING →
      (renewSteps w2 cd).1 = .error e →
      (acquireCert w2 d r0).1 =
        (if strOptTruthy cd.cert then .ok (.record cd) else .error e) := by
    intro w2 g1 g2 g3 g4 g5 g6
    have hA := acq_locked w2 d r0 tok g1 g2 g3
    have hL := locked_fail w2 r0 cd e g4 g5 g6
    rw [hL] at hA
    simp [hA]
  have hA := acq_locked w d r0 tok h1 h2 h3
  have hL := locked_fail w r0 cd e h4 h5 h6
  rw [hL] at hA
  refine ⟨key w h1 h2 h3 h4 h5 h6, by simp [hA], ?_⟩
  intro b
  rw [key w h1 h2 h3 h4 h5 h6]
  exact key { w with setCooldownOk := b } h1 h2 h3 h4 h5 h6

/-- World witnessing the amended C2: the re-fetched record still carries its
certificate and the CSR step throws. -/
def c2AmendWorld : AcquireWorld :=
  { baseWorld with csr := fun _ => .error (.opaqueErr "csr_failed") }

/-- Witness for the amended C2 at a concrete world: the re-fetched record
carries a certificate, so the CSR failure degrades to returning it, and the
cooldown set is in the trace. -/
theorem renew_failure_cooldown_then_degrade_witness :
    (acquireCert c2AmendWorld "mail.example.com" (some recNoCert)).1 =
      .ok (.record recWithCert) ∧
    Event.setCooldown true ∈
      (acquireCert c2AmendWorld "mail.example.com" (some recNoCert)).2 := by
  have h := renew_failure_cooldown_then_degrade c2AmendWorld "mail.example.com"
    (some recNoCert) 1 recWithCert (.opaqueErr "csr_failed") rfl rfl rfl rfl
    (by decide) (by decide)
  refine ⟨?_, h.2.1⟩
  rw [h.1]
  decide

/-- World for C10: the re-fetch under the lease finds the certificate-less
pending record and the CA call then throws. -/
def c10World : AcquireWorld :=
  { baseWorld with
    refetch := .ok (some recNoCert)
    caCreate := .error (.opaqueErr "ca_failed") }

/-- C10: the graceful-degrade fallback of the catch tests the record
re-fetched under the lease, not the record passed by the caller: with a
caller record that carries certificate data, a null re-fetch propagates the
TypeError of line 201, and a certificate-less re-fetched record followed by
any pipeline failure propagates that failure. -/
theorem degrade_tests_refetched_record (w : AcquireWorld) (d : String)
    (r0 : CertRecord) (tok : Nat) (e : Err)
    (h0 : strOptTruthy r0.cert = true)
    (h1 : w.cooldownSet = .ok false)
    (h2 : (validateDomain w d).1 = .ok ())
    (h3 : w.lockResult = .ok tok) :
    (w.refetch = .ok none →
      (acquireCert w d (some r0)).1 = .error (.opaqueErr "TypeError")) ∧
    (∀ cd, w.refetch = .ok (some cd) → strOptTruthy cd.cert = false →
      ¬cd.expires > w.now + RENEW_AFTER_REMAINING →
      (renewSteps w cd).1 = .error e →
      (acquireCert w d (some r0)).1 = .error e) := by
  constructor
  · intro h4
    have hA := acq_locked w d (some r0) tok h1 h2 h3
    have hL := locked_refetch_none w (some r0) h4
    rw [hL] at hA
    simp [hA]
  · intro cd h4 hcd h5 h6
    have hA := acq_locked w d (some r0) tok h1 h2 h3
    have hL := locked_fail w (some r0) cd e h4 h5 h6
    rw [hL] at hA
    simp [hA, hcd]

/-- Witness for C10 at a concrete world: the caller record carries a
certificate, the re-fetched record does not, the CA call fails, and the
failure propagates. -/
theorem degrade_tests_refetched_record_witness :
    (acquireCert c10World "mail.example.com" (some recWithCert)).1 =
      .error (.opaqueErr "ca_failed") := by
  have h := degrade_tests_refetched_record c10World "mail.example.com" recWithCert 1
    (.opaqueErr "ca_failed") (by decide) rfl rfl rfl
  exact h.2 recNoCert rfl (by decide) (by decide) (by decide)

/-!
## Result shapes: which non-record values can escape
-/

/-- The issuance pipeline yields the literal `false` only when the account
lookup found nothing, the raw CA result only when the CA response lacked a
usable certificate or the store update reported failure, and null only when
the CA call or the final re-read returned nothing. -/
theorem renewSteps_shapes (w : AcquireWorld) (cd : CertRecord) :
    ((renewSteps w cd).1 = .ok .fals → w.account = .ok none) ∧
    (∀ c, (renewSteps w cd).1 = .ok (.rawCa c) →
      w.caCreate = .ok (some c) ∧
        (strOptTruthy c.cert = false ∨ w.update = .ok false)) ∧
    ((renewSteps w cd).1 = .ok .nul →
      w.caCreate = .ok none ∨ w.reread = .ok none) := by
  unfold renewSteps
  rcases hk : keyStep w cd with ⟨kr, kt⟩
  cases kr with
  | error e => simp
  | ok key =>
    simp only []
    rcases hc : w.csr key with ce | cs
    · simp
    · rcases ha : w.account with ae | aov
      · simp
      · cases aov with
        | none => simp [ha]
        | some acct =>
          rcases hj : w.accountJwk with je | ju
          · simp
          · rcases hca : w.caCreate with cae | caov
            · simp
            · cases caov with
              | none => simp [hca]
              | some c =>
                cases hcc : strOptTruthy c.cert with
                | false => simp [hca, hcc]
                | true =>
                  simp only [hcc, if_true]
                  rcases hp : w.parse with pe | pv
                  · simp
                  · rcases hu : w.update with ue | ub
                    · simp
                    · cases ub with
                      | false => simp [hca, hu]
                      | true =>
                        rcases hr : w.reread with re | rv
                        · simp
                        · cases rv with
                          | none => simp [hr, jsOf]
                          | some rr => simp [jsOf]

/-- Lifting of the shapes to the locked critical section. -/
theorem lockedSection_shapes (w : AcquireWorld) (r : CertRecord) :
    ((lockedSection w (some r)).1 = .ok .fals → w.account = .ok none) ∧
    (∀ c, (lockedSection w (some r)).1 = .ok (.rawCa c) →
      w.caCreate = .ok (some c) ∧
        (strOptTruthy c.cert = false ∨ w.update = .ok false)) ∧
    ((lockedSection w (some r)).1 = .ok .nul →
      w.caCreate = .ok none ∨ w.reread = .ok none) := by
  unfold lockedSection
  rcases hf : w.refetch with fe | fov
  · simp only [withEv, catchPath, recTruthyCert]
    split <;> simp [jsOf]
  · cases fov with
    | none =>
      simp [withEv, catchPath, recTruthyCert]
    | some cd =>
      simp only []
      by_cases hfr : cd.expires > w.now + RENEW_AFTER_REMAINING
      · simp [hfr]
      · simp only [hfr, if_neg, if_false]
        rcases hs : renewSteps w cd with ⟨sr, st⟩
        cases sr with
        | error e =>
          simp only [withEv, catchPath, recTruthyCert]
          split <;> simp [jsOf]
        | ok v =>
          simp only []
          refine ⟨?_, ?_, ?_⟩
          · intro h
            have hv : v = .fals := by simpa using h
            exact (renewSteps_shapes w cd).1 (by rw [hs, hv])
          · intro c h
            have hv : v = .rawCa c := by simpa using h
            exact (renewSteps_shapes w cd).2.1 c (by rw [hs, hv])
          · intro h
            have hv : v = .nul := by simpa using h
            exact (renewSteps_shapes w cd).2.2 (by rw [hs, hv])

/-- Lifting of the shapes through `acquireCert`. -/
theorem acquireCert_shapes (w : AcquireWorld) (d : String) (r : CertRecord) :
    ((acquireCert w d (some r)).1 = .ok .fals → w.account = .ok none) ∧
    (∀ c, (acquireCert w d (some r)).1 = .ok (.rawCa c) →
      w.caCreate = .ok (some c) ∧
        (strOptTruthy c.cert = false ∨ w.update = .ok false)) ∧
    ((acquireCert w d (some r)).1 = .ok .nul →
      w.caCreate = .ok none ∨ w.reread = .ok none) := by
  unfold acquireCert
  rcases h1 : w.cooldownSet with ce | cb
  · simp
  · cases cb with
    | true => simp [jsOf]
    | false =>
      rcases hv : validateDomain w d with ⟨vr, vt⟩
      cases vr with
      | error e => simp [jsOf]
      | ok u =>
        simp only []
        rcases hl : w.lockResult with le | tok
        · simp
        · rcases hLS : lockedSection w (some r) with ⟨lr, lt⟩
          simp only []
          refine ⟨?_, ?_, ?_⟩
          · intro h
            have hlr : lr = .ok .fals := by simpa using h
            exact (lockedSection_shapes w r).1 (by rw [hLS]; simp [hlr])
          · intro c h
            have hlr : lr = .ok (.rawCa c) := by simpa using h
            exact (lockedSection_shapes w r).2.1 c (by rw [hLS]; simp [hlr])
          · intro h
            have hlr : lr = .ok .nul := by simpa using h
            exact (lockedSection_shapes w r).2.2 (by rw [hLS]; simp [hlr])

/-- C3 as amended: `getCertificate` returns a certificate record or fails
with one of the named error kinds or an opaque internal error, except in
three degenerate collaborator cases, characterized exactly: the literal
`false` escapes only when the account lookup found no account, the raw CA
`{cert, chain}` result escapes only when that CA response lacked a usable
certificate or the store update reported failure, and null escapes only when
the CA call or the post-update re-read returned nothing. -/
theorem getCertificate_result_shapes (w : GetWorld) (d : String) :
    ((getCertificate w d).1 = .ok .fals → w.acq.account = .ok none) ∧
    (∀ c, (getCertificate w d).1 = .ok (.rawCa c) →
      w.acq.caCreate = .ok (some c) ∧
        (strOptTruthy c.cert = false ∨ w.acq.update = .ok false)) ∧
    ((getCertificate w d).1 = .ok .nul →
      w.acq.caCreate = .ok none ∨ w.acq.reread = .ok none) := by
  unfold getCertificate
  rcases he : w.ensureAcmeRes with ee | eu
  · simp
  · rcases hg : w.fetchByServername with ge | gov
    · simp
    · cases gov with
      | none => simp
      | some cd =>
        simp only []
        by_cases hfr : cd.expires > w.acq.now + thirtyDaysMs
        · simp [hfr]
        · rw [if_neg hfr]
          by_cases hst : cd.expires > w.acq.now
          · rcases hA : acquireCert w.acq (normalizeDomain d) (some cd) with ⟨ar, bt⟩
            simp [hst]
          · rw [if_neg hst]
            rcases hA : acquireCert w.acq (normalizeDomain d) (some cd) with ⟨ar, at2⟩
            simp only [withEv]
            refine ⟨?_, ?_, ?_⟩
            · intro h
              have har : ar = .ok .fals := by simpa using h
              exact (acquireCert_shapes w.acq (normalizeDomain d) cd).1
                (by rw [hA]; simp [har])
            · intro c h
              have har : ar = .ok (.rawCa c) := by simpa using h
              exact (acquireCert_shapes w.acq (normalizeDomain d) cd).2.1 c
                (by rw [hA]; simp [har])
            · intro h
              have har : ar = .ok .nul := by simpa using h
              exact (acquireCert_shapes w.acq (normalizeDomain d) cd).2.2
                (by rw [hA]; simp [har])

/-- World refuting C3 as stated: the CA issues a certificate but the store
update reports failure, so line 266 returns the raw `{cert, chain}`
object. -/
def c3World : GetWorld :=
  { acq := { baseWorld with update := .ok false }
    ensureAcmeRes := .ok ()
    fetchByServername := .ok (some recWithCert) }

/-- C3 counterexample: the claim says the top-level entry point never
returns a non-record value such as a bare `{cert, chain}` object; at this
world the expired record triggers a synchronous renewal, the CA issues, the
store update reports failure, and the raw CA result is returned to the
top-level caller. -/
theorem getCertificate_raw_ca_cex :
    (getCertificate c3World "mail.example.com").1 =
      .ok (.rawCa ⟨some "NEWCERTPEM", ["NEWCHAINPEM"]⟩) := by
  decide

/-- Witness for the amended C3 at the concrete world of the counterexample:
the raw CA result escaped, so the shapes theorem pins the CA response and
the failed update. -/
theorem getCertificate_result_shapes_witness :
    c3World.acq.caCreate = .ok (some ⟨some "NEWCERTPEM", ["NEWCHAINPEM"]⟩) ∧
    (strOptTruthy (RawCert.mk (some "NEWCERTPEM") ["NEWCHAINPEM"]).cert = false ∨
      c3World.acq.update = .ok false) :=
  (getCertificate_result_shapes c3World "mail.example.com").2.1
    ⟨some "NEWCERTPEM", ["NEWCHAINPEM"]⟩ (by decide)

/-- World refuting C5 as stated: the stored record is expired and carries no
certificate data, and the per-domain cooldown flag is set. -/
def c5CexWorld : GetWorld :=
  { acq := { baseWorld with cooldownSet := .ok true }
    ensureAcmeRes := .ok ()
    fetchByServername := .ok (some recNoCert) }

/-- C5 counterexample: the claim allows only a record with a later expiry,
the original still-expired record when issuance failed and the stored record
carries certificate data, or a raised error. At this world the cooldown flag
is set, so the still-expired record is returned unchanged although it
carries no certificate data and no issuance was attempted or failed. -/
theorem expired_cooldown_returns_bare_record_cex :
    (getCertificate c5CexWorld "mail.example.com").1 = .ok (.record recNoCert) ∧
    recNoCert.expires ≤ c5CexWorld.acq.now ∧
    recNoCert.cert = none := by
  decide

/-- C5 as amended: for an expired record the dispatcher runs the renewal
synchronously — the whole call is exactly the `acquireCert` run, with no
detached background start — and the outcome is: the record unchanged when
the cooldown flag is set or validation fails; the fresher re-fetched record
(whose expiry is strictly later) when the post-lease re-check finds one; on
an issuance-pipeline failure, the re-fetched record when it carries
certificate data and the raised failure otherwise; and otherwise whatever
value the issuance pipeline produced (the re-read record, or one of the
degenerate non-record values). -/
theorem expired_path_sync_renewal (w : GetWorld) (d : String) (cd : CertRecord)
    (hensure : w.ensureAcmeRes = .ok ())
    (hfetch : w.fetchByServername = .ok (some cd))
    (hexp : cd.expires ≤ w.acq.now) :
    getCertificate w d =
      withEv [Event.ensureAcme, Event.fetchRecord]
        (acquireCert w.acq (normalizeDomain d) (some cd)) ∧
    (w.acq.cooldownSet = .ok true → (getCertificate w d).1 = .ok (.record cd)) ∧
    (∀ e, w.acq.cooldownSet = .ok false →
      (validateDomain w.acq (normalizeDomain d)).1 = .error e →
      (getCertificate w d).1 = .ok (.record cd)) ∧
    (∀ tok cd2, w.acq.cooldownSet = .ok false →
      (validateDomain w.acq (normalizeDomain d)).1 = .ok () →
      w.acq.lockResult = .ok tok →
      w.acq.refetch = .ok (some cd2) →
      cd2.expires > w.acq.now + RENEW_AFTER_REMAINING →
      (getCertificate w d).1 = .ok (.record cd2) ∧ cd.expires < cd2.expires) ∧
    (∀ tok cd2 e, w.acq.cooldownSet = .ok false →
      (validateDomain w.acq (normalizeDomain d)).1 = .ok () →
      w.acq.lockResult = .ok tok →
      w.acq.refetch = .ok (some cd2) →
      ¬cd2.expires > w.acq.now + RENEW_AFTER_REMAINING →
      (renewSteps w.acq cd2).1 = .error e →
      (getCertificate w d).1 =
        (if strOptTruthy cd2.cert then .ok (.record cd2) else .error e)) ∧
    (∀ tok cd2 v, w.acq.cooldownSet = .ok false →
      (validateDomain w.acq (normalizeDomain d)).1 = .ok () →
      w.acq.lockResult = .ok tok →
      w.acq.refetch = .ok (some cd2) →
      ¬cd2.expires > w.acq.now + RENEW_AFTER_REMAINING →
      (renewSteps w.acq cd2).1 = .ok v →
      (getCertificate w d).1 = .ok v) := by
  have h30 : ¬cd.expires > w.acq.now + thirtyDaysMs := by
    unfold thirtyDaysMs
    omega
  have hnow : ¬cd.expires > w.acq.now := by omega
  have hmain : getCertificate w d =
      withEv [Event.ensureAcme, Event.fetchRecord]
        (acquireCert w.acq (normalizeDomain d) (some cd)) := by
    unfold getCertificate
    rw [hensure]
    simp only []
    rw [hfetch]
    simp only []
    rw [if_neg h30, if_neg hnow]
  refine ⟨hmain, ?_, ?_, ?_, ?_, ?_⟩
  · intro hcool
    rw [hmain]
    simp [withEv, acq_cooldown w.acq (normalizeDomain d) (some cd) hcool, jsOf]
  · intro e hcool hval
    rw [hmain]
    simp [withEv, acq_valfail w.acq (normalizeDomain d) (some cd) e hcool hval, jsOf]
  · intro tok cd2 hcool hval hlock href hfrr
    have hA := acq_locked w.acq (normalizeDomain d) (some cd) tok hcool hval hlock
    have hL := locked_fresh w.acq (some cd) cd2 href hfrr
    rw [hL] at hA
    refine ⟨by rw [hmain]; simp [withEv, hA], ?_⟩
    unfold RENEW_AFTER_REMAINING at hfrr
    omega
  · intro tok cd2 e hcool hval hlock href hfrr hsteps
    have hA := acq_locked w.acq (normalizeDomain d) (some cd) tok hcool hval hlock
    have hL := locked_fail w.acq (some cd) cd2 e href hfrr hsteps
    rw [hL] at hA
    rw [hmain]
    simp [withEv, hA]
  · intro tok cd2 v hcool hval hlock href hfrr hsteps
    have hA := acq_locked w.acq (normalizeDomain d) (some cd) tok hcool hval hlock
    have hL := locked_ok w.acq (some cd) cd2 v href hfrr hsteps
    rw [hL] at hA
    rw [hmain]
    simp [withEv, hA]

/-- World witnessing the amended C5: every collaborator succeeds, so the
synchronous renewal returns the freshly re-read record. -/
def c5SyncWorld : GetWorld :=
  { acq := baseWorld
    ensureAcmeRes := .ok ()
    fetchByServername := .ok (some recWithCert) }

/-- Witness for the amended C5 at a concrete world: the expired record is
renewed synchronously and the re-read record with the later expiry comes
back. -/
theorem expired_path_sync_renewal_witness :
    (getCertificate c5SyncWorld "mail.example.com").1 = .ok (.record recFresh) := by
  have h := expired_path_sync_renewal c5SyncWorld "mail.example.com" recWithCert
    rfl rfl (by decide)
  exact h.2.2.2.2.2 1 recWithCert (.record recFresh) rfl rfl rfl rfl
    (by decide) (by decide)

end AcmeCerts
